import Mathlib

/-!
Shallow embedding of the BGRemover service (FastAPI app in main.py, with
services/image_processor.py and services/storage_service.py), together with
theorems settling the specification claims.

Python exceptions are modelled by an explicit error type; fallible code
returns Except.  External effects (the HTTP fetch, the rembg model, the S3
put_object call) are parameters of the embedded functions, so each theorem
quantifies over every possible behaviour of those dependencies.
-/

namespace BGRemover

/-- Python exception classes that occur in this codebase. -/
inductive PyError where
  | valueError (msg : String)
  | typeError (msg : String)
  | keyError (key : String)
  | attributeError
  deriving Repr, DecidableEq

/-- str(e) as used when an exception message is re-wrapped. -/
def pyStr : PyError → String
  | .valueError m => m
  | .typeError m => m
  | .keyError k => k
  | .attributeError => "AttributeError"

/-- True exactly for ValueError, the class the request handler maps to 400. -/
def isValueError : PyError → Bool
  | .valueError _ => true
  | _ => false

/-- A PIL image: pixel buffer abstracted to its dimensions, colour mode and
(for freshly decoded images) its container format. -/
structure PILImage where
  width : Nat
  height : Nat
  mode : String
  format : Option String
  deriving Repr, DecidableEq

/-- PIL Image.convert: changes the colour mode, keeps the pixels and size;
the resulting in-memory image has no container format. -/
def convertMode (img : PILImage) (m : String) : PILImage :=
  ⟨img.width, img.height, m, none⟩

/-- The bounding_box request field: a Python dict whose four integer keys may
each be present or absent. -/
structure BoundingBox where
  x_min : Option Int
  y_min : Option Int
  x_max : Option Int
  y_max : Option Int
  deriving Repr, DecidableEq

/-- dict.get(key, default): the defaulting lookup used by validate_bounding_box. -/
def dictGetD (v : Option Int) (d : Int) : Int := v.getD d

/-- dict[key]: the strict lookup used by crop_image; raises KeyError when absent. -/
def dictGetStrict (v : Option Int) (key : String) : Except PyError Int :=
  match v with
  | some n => .ok n
  | none => .error (.keyError key)

/-- ImageProcessor.validate_bounding_box from services/image_processor.py:
reads the four coordinates with dict.get and default 0, then requires
0 <= x_min < x_max <= width and 0 <= y_min < y_max <= height, raising
ValueError otherwise. -/
def validate_bounding_box (image : PILImage) (bb : BoundingBox) : Except PyError Unit :=
  let width : Int := image.width
  let height : Int := image.height
  let x0 := dictGetD bb.x_min 0
  let y0 := dictGetD bb.y_min 0
  let x1 := dictGetD bb.x_max 0
  let y1 := dictGetD bb.y_max 0
  if 0 ≤ x0 ∧ x0 < x1 ∧ x1 ≤ width ∧ 0 ≤ y0 ∧ y0 < y1 ∧ y1 ≤ height then
    .ok ()
  else
    .error (.valueError "Bounding box is invalid for the image dimensions.")

/-- ImageProcessor.crop_image from services/image_processor.py: reads the four
coordinates with strict dict indexing (KeyError when a key is absent, in the
order x_min, y_min, x_max, y_max), crops, and converts back to the original
mode. -/
def crop_image (image : PILImage) (bb : BoundingBox) : Except PyError PILImage :=
  match dictGetStrict bb.x_min "x_min" with
  | .error e => .error e
  | .ok x0 =>
    match dictGetStrict bb.y_min "y_min" with
    | .error e => .error e
    | .ok y0 =>
      match dictGetStrict bb.x_max "x_max" with
      | .error e => .error e
      | .ok x1 =>
        match dictGetStrict bb.y_max "y_max" with
        | .error e => .error e
        | .ok y1 =>
            .ok (convertMode ⟨(x1 - x0).toNat, (y1 - y0).toNat, image.mode, none⟩
              image.mode)

/-- Possible outcomes of one HTTP fetch plus decode attempt inside
ImageProcessor.download_image: a requests timeout, another requests failure,
a PIL decode failure (IOError), or a successfully decoded image. -/
inductive DownloadOutcome where
  | timeout
  | requestError (msg : String)
  | ioError
  | decoded (img : PILImage)
  deriving Repr

/-- Whether img.format is one of the formats download_image accepts. -/
def supportedFormat (img : PILImage) : Bool :=
  img.format = some "JPEG" ∨ img.format = some "PNG" ∨ img.format = some "BMP"

/-- ImageProcessor.download_image from services/image_processor.py: fetches the
URL, decodes and verifies the payload, and rejects formats other than
JPEG/PNG/BMP.  Timeouts, request failures and decode failures are translated
to ValueError; the unsupported-format ValueError escapes the except clauses
(which only catch requests exceptions and IOError) unchanged. -/
def download_image (outcome : DownloadOutcome) : Except PyError PILImage :=
  match outcome with
  | .timeout =>
      .error (.valueError "The request timed out while trying to download the image")
  | .requestError m =>
      .error (.valueError ("An error occurred while downloading the image: " ++ m))
  | .ioError =>
      .error (.valueError "Failed to open the image. The file might be corrupted or unsupported.")
  | .decoded img =>
      if supportedFormat img then .ok img
      else .error (.valueError "Unsupported image format")

/-- Observable behaviour of one run of download_image_with_retries: the value
returned or exception raised, how many download attempts were made, and the
argument of each time.sleep call, in order. -/
structure RetryResult where
  result : Except PyError (Option PILImage)
  attempts : Nat
  sleeps : List Nat
  deriving Repr

/-- The for-loop of ImageProcessor.download_image_with_retries, indexed by the
number of loop iterations still to run (remaining = retries - attempt) and the
current attempt index.  On failure it sleeps and continues unless this was the
last iteration, in which case the exception is re-raised; a loop that runs zero
iterations falls through and returns None. -/
def retryLoop (d : Nat → Except PyError PILImage) (delay : Nat) :
    Nat → Nat → RetryResult
  | 0, _ => ⟨.ok none, 0, []⟩
  | remaining + 1, attempt =>
      match d attempt with
      | .ok img => ⟨.ok (some img), 1, []⟩
      | .error e =>
          if remaining = 0 then
            ⟨.error e, 1, []⟩
          else
            let rest := retryLoop d delay remaining (attempt + 1)
            ⟨rest.result, rest.attempts + 1, delay :: rest.sleeps⟩

/-- ImageProcessor.download_image_with_retries, over an arbitrary per-attempt
download behaviour d. -/
def download_image_with_retries (d : Nat → Except PyError PILImage)
    (retries delay : Nat) : RetryResult :=
  retryLoop d delay retries 0

/-- download_image_with_retries at its default arguments retries=3, delay=2. -/
def download_image_with_retries_default (d : Nat → Except PyError PILImage) :
    RetryResult :=
  download_image_with_retries d 3 2

/-- A NumPy array abstracted to its shape (ndim = shape.length). -/
structure NpArray where
  shape : List Nat
  deriving Repr, DecidableEq

/-- np.array applied to a PIL image in a 4-channel mode: an array of shape
(height, width, 4). -/
def npOfImage (img : PILImage) : NpArray :=
  ⟨[img.height, img.width, 4]⟩

/-- The RGBA normalisation at the start of ImageProcessor.remove_background:
modes other than RGB/RGBA are first converted to RGB, then the image is
converted to RGBA. -/
def toRGBA (img : PILImage) : PILImage :=
  let img1 := if img.mode = "RGB" ∨ img.mode = "RGBA" then img else convertMode img "RGB"
  convertMode img1 "RGBA"

/-- The try-block of ImageProcessor.remove_background: normalise to RGBA, run
the rembg model on the NumPy array, and rebuild an RGBA PIL image when the
output is a 3-dimensional array with 4 channels, raising ValueError otherwise. -/
def remove_background_core (model : NpArray → NpArray) (img : PILImage) :
    Except PyError PILImage :=
  match (model (npOfImage (toRGBA img))).shape with
  | [h, w, 4] => .ok ⟨w, h, "RGBA", none⟩
  | _ => .error (.valueError "Unexpected array shape during background removal")

/-- ImageProcessor.remove_background from services/image_processor.py: the
try-block wrapped by the except clause that re-raises any exception as
ValueError("Background removal failed: ..."). -/
def remove_background (model : NpArray → NpArray) (img : PILImage) :
    Except PyError PILImage :=
  match remove_background_core model img with
  | .ok out => .ok out
  | .error e => .error (.valueError ("Background removal failed: " ++ pyStr e))

/-- The stages of the pipeline that process_image can enter. -/
inductive Stage where
  | download
  | validate
  | crop
  | removeBg
  deriving Repr, DecidableEq

/-- ImageProcessor.process_image from services/image_processor.py: the linear
pipeline download (with default retry configuration) then bounding-box
validation then crop then background removal; its except clause logs and
re-raises unchanged.  Alongside the Python result we return the list of stages
entered, for reasoning about ordering.  A download loop that falls through with
None would make validate_bounding_box dereference None (AttributeError). -/
def process_image (fetch : Nat → DownloadOutcome) (model : NpArray → NpArray)
    (bb : BoundingBox) : Except PyError PILImage × List Stage :=
  match (download_image_with_retries_default (fun i => download_image (fetch i))).result with
  | .error e => (.error e, [.download])
  | .ok none => (.error .attributeError, [.download, .validate])
  | .ok (some img) =>
      match validate_bounding_box img bb with
      | .error e => (.error e, [.download, .validate])
      | .ok () =>
          match crop_image img bb with
          | .error e => (.error e, [.download, .validate, .crop])
          | .ok cropped =>
              match remove_background model cropped with
              | .error e => (.error e, [.download, .validate, .crop, .removeBg])
              | .ok processed => (.ok processed, [.download, .validate, .crop, .removeBg])

/-- The arguments of the s3_client.put_object call made by
StorageService.upload_image. -/
structure PutObjectCall where
  bucket : String
  key : String
  contentType : String
  deriving Repr, DecidableEq

/-- Failures of the boto3 put_object call, the exception classes caught by
StorageService.upload_image. -/
inductive S3Error where
  | botoCoreError (msg : String)
  | clientError (msg : String)
  | otherError (msg : String)
  deriving Repr, DecidableEq

/-- StorageService.upload_image from services/storage_service.py, over an
arbitrary behaviour of the S3 client and an arbitrary value of the uuid.uuid4
call: builds the key uuid ++ "_processed.png", issues put_object with
content-type image/png on the configured bucket, and on success returns the
public URL composed from bucket, region and key; every S3 failure is re-raised
as ValueError.  The put_object call actually issued is returned alongside. -/
def upload_image (uuid bucket region : String)
    (putObject : PutObjectCall → Except S3Error Unit) :
    Except PyError String × PutObjectCall :=
  let filename := uuid ++ "_processed.png"
  let call : PutObjectCall := ⟨bucket, filename, "image/png"⟩
  match putObject call with
  | .ok () =>
      (.ok ("https://" ++ bucket ++ ".s3." ++ region ++ ".amazonaws.com/" ++ filename), call)
  | .error (.botoCoreError m) => (.error (.valueError ("S3 upload failed: " ++ m)), call)
  | .error (.clientError m) => (.error (.valueError ("S3 upload failed: " ++ m)), call)
  | .error (.otherError m) =>
      (.error (.valueError ("Unexpected error during S3 upload: " ++ m)), call)

/-- The parameter names of StorageService.upload_image (besides self), all
required. -/
def upload_image_params : List String := ["image", "original_url"]

/-- The keyword-argument names the handler in main.py passes to
storage_service.upload_image. -/
def handler_upload_kwargs : List String := ["image", "original_image_url"]

/-- Python keyword-argument binding for a call made with keyword arguments
only: an unexpected keyword raises TypeError, as does a missing required
parameter. -/
def bindKwargs (params kwargs : List String) : Except PyError Unit :=
  if kwargs.all (fun k => params.contains k) then
    if params.all (fun p => kwargs.contains p) then .ok ()
    else .error (.typeError "missing a required argument")
  else .error (.typeError "got an unexpected keyword argument")

/-- The JSON body of POST /remove-background (pydantic model in main.py). -/
structure ImageProcessRequest where
  image_url : String
  bounding_box : BoundingBox
  deriving Repr, DecidableEq

/-- The result of one request to the endpoint: the 200 response body, or an
HTTPException with a status code and detail. -/
inductive HttpResult where
  | ok (original_image_url processed_image_url : String)
  | httpError (status : Nat) (detail : String)
  deriving Repr, DecidableEq

/-- The HTTP status code of a handler result. -/
def statusOf : HttpResult → Nat
  | .ok _ _ => 200
  | .httpError s _ => s

/-- The except clauses of the handler in main.py: ValueError becomes
HTTPException 400 with the exception text, every other exception becomes
HTTPException 500 "Internal server error". -/
def pyErrorToHttp : PyError → HttpResult
  | .valueError m => .httpError 400 m
  | _ => .httpError 500 "Internal server error"

/-- The in-memory buffer the handler writes the processed image into before
uploading: an image together with the encoding format passed to save. -/
structure EncodedImage where
  image : PILImage
  format : String
  deriving Repr, DecidableEq

/-- The POST /remove-background handler from main.py: runs
ImageProcessor.process_image, saves the result into a PNG buffer, calls
storage_service.upload_image with keyword arguments image and
original_image_url (which must first bind against the methods parameter list),
and returns the response body; ValueError maps to 400, anything else to 500.
The PNG buffer built before the upload call is returned alongside for
reasoning about the encoded output. -/
def remove_background_endpoint (req : ImageProcessRequest)
    (fetch : Nat → DownloadOutcome) (model : NpArray → NpArray)
    (uuid bucket region : String)
    (putObject : PutObjectCall → Except S3Error Unit) :
    HttpResult × Option EncodedImage :=
  match process_image fetch model req.bounding_box with
  | (.error e, _) => (pyErrorToHttp e, none)
  | (.ok processed, _) =>
      let buffer : EncodedImage := ⟨processed, "PNG"⟩
      match bindKwargs upload_image_params handler_upload_kwargs with
      | .error e => (pyErrorToHttp e, some buffer)
      | .ok () =>
          match (upload_image uuid bucket region putObject).1 with
          | .ok url => (.ok req.image_url url, some buffer)
          | .error e => (pyErrorToHttp e, some buffer)

/-- An HTTP route of the FastAPI app. -/
structure Route where
  method : String
  path : String
  deriving Repr, DecidableEq

/-- The routes registered on the app in main.py. -/
def app_routes : List Route :=
  [⟨"GET", "/"⟩, ⟨"POST", "/remove-background"⟩]

/-- The static body returned by the GET / handler in main.py. -/
def root_message : String :=
  "Welcome to the Background Removal API. Use /remove-background endpoint to process images."

/-- The GET / handler: a constant function of the request. -/
def root_endpoint : Unit → String := fun _ => root_message

/-! ## Helper lemmas -/

/-- One unfolding of the retry loop. -/
theorem retryLoop_succ (d : Nat → Except PyError PILImage) (delay remaining attempt : Nat) :
    retryLoop d delay (remaining + 1) attempt =
      match d attempt with
      | .ok img => ⟨.ok (some img), 1, []⟩
      | .error e =>
          if remaining = 0 then ⟨.error e, 1, []⟩
          else
            let rest := retryLoop d delay remaining (attempt + 1)
            ⟨rest.result, rest.attempts + 1, delay :: rest.sleeps⟩ := rfl

/-- When every attempt fails, the retry loop makes one attempt per remaining
iteration, sleeps between consecutive attempts, and raises the error of the
last attempt. -/
theorem retryLoop_all_fail (d : Nat → Except PyError PILImage) (err : Nat → PyError)
    (hd : ∀ i, d i = .error (err i)) (delay : Nat) :
    ∀ (n attempt : Nat),
      retryLoop d delay (n + 1) attempt =
        ⟨.error (err (attempt + n)), n + 1, List.replicate n delay⟩ := by
  intro n
  induction n with
  | zero => intro attempt; simp [retryLoop, hd attempt]
  | succ k ih =>
      intro attempt
      have hrec := ih (attempt + 1)
      rw [retryLoop_succ, hd attempt]
      dsimp only
      rw [if_neg (by omega : ¬(k + 1 = 0)), hrec]
      simp [RetryResult.mk.injEq, List.replicate_succ,
        show attempt + 1 + k = attempt + (k + 1) by omega]

/-- The put_object call issued by upload_image always carries the configured
bucket, the key uuid ++ "_processed.png" and content-type image/png. -/
theorem upload_image_call (uuid bucket region : String)
    (putObject : PutObjectCall → Except S3Error Unit) :
    (upload_image uuid bucket region putObject).2 =
      ⟨bucket, uuid ++ "_processed.png", "image/png"⟩ := by
  unfold upload_image
  cases hput : putObject ⟨bucket, uuid ++ "_processed.png", "image/png"⟩ with
  | ok u => cases u; simp [hput]
  | error e => cases e <;> simp [hput]

/-- A successful upload returns exactly the URL composed from bucket, region
and the generated key. -/
theorem upload_image_ok_url (uuid bucket region : String)
    (putObject : PutObjectCall → Except S3Error Unit) (url : String)
    (hok : (upload_image uuid bucket region putObject).1 = .ok url) :
    url = "https://" ++ bucket ++ ".s3." ++ region ++ ".amazonaws.com/" ++
        (uuid ++ "_processed.png") := by
  cases hput : putObject ⟨bucket, uuid ++ "_processed.png", "image/png"⟩ with
  | ok u => cases u; simp [upload_image, hput] at hok; exact hok.symm
  | error e => cases e <;> simp [upload_image, hput] at hok

/-- Every exception raised by upload_image is a ValueError. -/
theorem upload_image_error_is_valueError (uuid bucket region : String)
    (putObject : PutObjectCall → Except S3Error Unit) (e : PyError)
    (herr : (upload_image uuid bucket region putObject).1 = .error e) :
    isValueError e = true := by
  cases hput : putObject ⟨bucket, uuid ++ "_processed.png", "image/png"⟩ with
  | ok u => cases u; simp [upload_image, hput] at herr
  | error s3e =>
      cases s3e <;> (simp [upload_image, hput] at herr; subst herr; rfl)

/-- The URL built by upload_image determines the uuid: string concatenation
with fixed prefix and suffix is injective. -/
theorem upload_url_injective (bucket region u1 u2 : String)
    (h : "https://" ++ bucket ++ ".s3." ++ region ++ ".amazonaws.com/" ++
          (u1 ++ "_processed.png") =
        "https://" ++ bucket ++ ".s3." ++ region ++ ".amazonaws.com/" ++
          (u2 ++ "_processed.png")) :
    u1 = u2 := by
  have hd := congrArg String.data h
  simp only [String.data_append] at hd
  apply String.ext
  have h1 := List.append_cancel_left hd
  exact List.append_cancel_right h1

/-- The image rebuilt by the try-block of remove_background is in RGBA mode. -/
theorem remove_background_core_mode (model : NpArray → NpArray) (img out : PILImage)
    (h : remove_background_core model img = .ok out) : out.mode = "RGBA" := by
  unfold remove_background_core at h
  split at h
  · injection h with h'; rw [← h']
  · exact absurd h (by simp)

/-- Any image returned by remove_background is in RGBA mode. -/
theorem remove_background_mode (model : NpArray → NpArray) (img out : PILImage)
    (h : remove_background model img = .ok out) : out.mode = "RGBA" := by
  unfold remove_background at h
  split at h
  · case _ out' heq =>
      injection h with h'
      subst h'
      exact remove_background_core_mode model img out' heq
  · exact absurd h (by simp)

/-- remove_background succeeds exactly when the model output is a
3-dimensional array with 4 channels. -/
theorem remove_background_core_ok_iff (model : NpArray → NpArray) (img : PILImage) :
    (∃ out, remove_background_core model img = .ok out) ↔
      ∃ hh ww, (model (npOfImage (toRGBA img))).shape = [hh, ww, 4] := by
  unfold remove_background_core
  split
  · next hh ww hsh =>
      simp only [Except.ok.injEq]
      constructor
      · intro _; exact ⟨hh, ww, hsh⟩
      · intro _; exact ⟨_, rfl⟩
  · next hne =>
      constructor
      · intro ⟨out, hc⟩; exact absurd hc (by simp)
      · intro ⟨hh, ww, hsh⟩; exact absurd hsh (hne hh ww)

/-- remove_background succeeds exactly when the model output is a
3-dimensional array with 4 channels. -/
theorem remove_background_ok_iff (model : NpArray → NpArray) (img : PILImage) :
    (∃ out, remove_background model img = .ok out) ↔
      ∃ hh ww, (model (npOfImage (toRGBA img))).shape = [hh, ww, 4] := by
  rw [← remove_background_core_ok_iff]
  unfold remove_background
  split
  · next out' heq => exact ⟨fun _ => ⟨out', heq⟩, fun _ => ⟨out', rfl⟩⟩
  · next e heq =>
      constructor
      · intro ⟨out, hc⟩; exact absurd hc (by simp)
      · intro ⟨out, hc⟩; rw [heq] at hc; exact absurd hc (by simp)

/-- A successful pipeline result is the result of remove_background on the
cropped image. -/
theorem process_image_ok_rb (fetch : Nat → DownloadOutcome) (model : NpArray → NpArray)
    (bb : BoundingBox) (out : PILImage)
    (h : (process_image fetch model bb).1 = .ok out) :
    ∃ cropped, remove_background model cropped = .ok out := by
  unfold process_image at h
  split at h
  · exact absurd h (by simp)
  · exact absurd h (by simp)
  · split at h
    · exact absurd h (by simp)
    · split at h
      · exact absurd h (by simp)
      · split at h
        · exact absurd h (by simp)
        · next processed hrb =>
            simp only at h
            injection h with h'
            subst h'
            exact ⟨_, hrb⟩

/-! ## Claim theorems -/

/-- Claim C3: when every download attempt fails,
download_image_with_retries makes exactly the configured number of attempts
(default 3), sleeping the fixed delay between consecutive attempts, and the
error of the last attempt is propagated unmodified. -/
theorem retries_exhaust_then_propagate (d : Nat → Except PyError PILImage)
    (err : Nat → PyError) (retries delay : Nat)
    (hret : 1 ≤ retries) (hd : ∀ i, d i = .error (err i)) :
    (download_image_with_retries d retries delay).result = .error (err (retries - 1)) ∧
    (download_image_with_retries d retries delay).attempts = retries ∧
    (download_image_with_retries d retries delay).sleeps = List.replicate (retries - 1) delay ∧
    download_image_with_retries_default d = download_image_with_retries d 3 2 := by
  obtain ⟨r, rfl⟩ : ∃ r, retries = r + 1 := ⟨retries - 1, by omega⟩
  have h := retryLoop_all_fail d err hd delay r 0
  unfold download_image_with_retries
  rw [h]
  refine ⟨by simp, rfl, by simp, rfl⟩

/-- Witness for C3 at a concrete always-failing download with the default
configuration retries=3, delay=2. -/
theorem retries_exhaust_then_propagate_witness :
    (download_image_with_retries (fun _ => .error (.valueError "boom")) 3 2).result =
      .error (.valueError "boom") ∧
    (download_image_with_retries (fun _ => .error (.valueError "boom")) 3 2).attempts = 3 ∧
    (download_image_with_retries (fun _ => .error (.valueError "boom")) 3 2).sleeps = [2, 2] := by
  have h := retries_exhaust_then_propagate (fun _ => .error (.valueError "boom"))
    (fun _ => .valueError "boom") 3 2 (by omega) (fun _ => rfl)
  exact ⟨h.1, h.2.1, by rw [h.2.2.1]; rfl⟩

/-- Claim C4: for a bounding box with all four keys present,
validate_bounding_box succeeds iff 0 ≤ x_min < x_max ≤ width and
0 ≤ y_min < y_max ≤ height, judged against the downloaded image dimensions;
a violating box is rejected with a ValueError, which the handler maps to 400,
and in the pipeline that rejection is the final result. -/
theorem validate_bbox_characterisation (img : PILImage) (x0 y0 x1 y1 : Int) :
    (validate_bounding_box img ⟨some x0, some y0, some x1, some y1⟩ = .ok () ↔
      (0 ≤ x0 ∧ x0 < x1 ∧ x1 ≤ (img.width : Int) ∧
       0 ≤ y0 ∧ y0 < y1 ∧ y1 ≤ (img.height : Int))) ∧
    (¬(0 ≤ x0 ∧ x0 < x1 ∧ x1 ≤ (img.width : Int) ∧
       0 ≤ y0 ∧ y0 < y1 ∧ y1 ≤ (img.height : Int)) →
      ∃ m, validate_bounding_box img ⟨some x0, some y0, some x1, some y1⟩ =
          .error (.valueError m) ∧
        pyErrorToHttp (.valueError m) = .httpError 400 m) ∧
    (∀ fetch model e,
      (download_image_with_retries_default (fun i => download_image (fetch i))).result =
        .ok (some img) →
      validate_bounding_box img ⟨some x0, some y0, some x1, some y1⟩ = .error e →
      (process_image fetch model ⟨some x0, some y0, some x1, some y1⟩).1 = .error e) := by
  refine ⟨?_, ?_, ?_⟩
  · simp only [validate_bounding_box, dictGetD, Option.getD_some]
    split
    · case isTrue h => simp [h]
    · case isFalse h => simp [h]
  · intro h
    refine ⟨"Bounding box is invalid for the image dimensions.", ?_, rfl⟩
    simp only [validate_bounding_box, dictGetD, Option.getD_some]
    rw [if_neg h]
  · intro fetch model e hdl hval
    simp only [process_image, hdl, hval]

/-- Witness for C4: a box inside a 100x100 image passes, a box crossing the
right edge is rejected with a 400-mapped ValueError. -/
theorem validate_bbox_characterisation_witness :
    validate_bounding_box ⟨100, 100, "RGB", some "JPEG"⟩
      ⟨some 0, some 0, some 10, some 10⟩ = .ok () ∧
    (∃ m, validate_bounding_box ⟨100, 100, "RGB", some "JPEG"⟩
        ⟨some 0, some 0, some 101, some 10⟩ = .error (.valueError m) ∧
      pyErrorToHttp (.valueError m) = .httpError 400 m) := by
  constructor
  · exact (validate_bbox_characterisation ⟨100, 100, "RGB", some "JPEG"⟩ 0 0 10 10).1.mpr
      (by norm_num)
  · exact (validate_bbox_characterisation ⟨100, 100, "RGB", some "JPEG"⟩ 0 0 101 10).2.1
      (by norm_num)

/-- Claim C8: every successful upload stores the image under the key
uuid ++ "_processed.png" with content-type image/png in the configured
bucket, and returns the public URL composed deterministically from bucket,
region and key. -/
theorem upload_stores_key_and_returns_url (uuid bucket region : String)
    (putObject : PutObjectCall → Except S3Error Unit) (url : String)
    (hok : (upload_image uuid bucket region putObject).1 = .ok url) :
    (upload_image uuid bucket region putObject).2.key = uuid ++ "_processed.png" ∧
    (upload_image uuid bucket region putObject).2.contentType = "image/png" ∧
    (upload_image uuid bucket region putObject).2.bucket = bucket ∧
    url = "https://" ++ bucket ++ ".s3." ++ region ++ ".amazonaws.com/" ++
        (upload_image uuid bucket region putObject).2.key := by
  rw [upload_image_call]
  exact ⟨rfl, rfl, rfl, upload_image_ok_url uuid bucket region putObject url hok⟩

/-- Witness for C8 at a concrete uuid, bucket and region with a succeeding
S3 client. -/
theorem upload_stores_key_and_returns_url_witness :
    (upload_image "id1" "bkt" "reg" (fun _ => .ok ())).2.key = "id1" ++ "_processed.png" ∧
    (upload_image "id1" "bkt" "reg" (fun _ => .ok ())).2.contentType = "image/png" ∧
    (upload_image "id1" "bkt" "reg" (fun _ => .ok ())).2.bucket = "bkt" ∧
    "https://bkt.s3.reg.amazonaws.com/id1_processed.png" =
      "https://" ++ "bkt" ++ ".s3." ++ "reg" ++ ".amazonaws.com/" ++
        (upload_image "id1" "bkt" "reg" (fun _ => .ok ())).2.key :=
  upload_stores_key_and_returns_url "id1" "bkt" "reg" (fun _ => .ok ())
    "https://bkt.s3.reg.amazonaws.com/id1_processed.png" rfl

/-- Claim C9: two successful uploads with distinct generated keys return
distinct public URLs, because the URL construction is injective in the uuid. -/
theorem upload_urls_distinct (bucket region u1 u2 : String)
    (p1 p2 : PutObjectCall → Except S3Error Unit) (url1 url2 : String)
    (hne : u1 ≠ u2)
    (h1 : (upload_image u1 bucket region p1).1 = .ok url1)
    (h2 : (upload_image u2 bucket region p2).1 = .ok url2) :
    url1 ≠ url2 := by
  intro heq
  apply hne
  apply upload_url_injective bucket region u1 u2
  rw [← upload_image_ok_url u1 bucket region p1 url1 h1,
    ← upload_image_ok_url u2 bucket region p2 url2 h2]
  exact heq

/-- Witness for C9 at two concrete distinct uuids. -/
theorem upload_urls_distinct_witness :
    ("https://bkt.s3.reg.amazonaws.com/a_processed.png" : String) ≠
      "https://bkt.s3.reg.amazonaws.com/b_processed.png" :=
  upload_urls_distinct "bkt" "reg" "a" "b" (fun _ => .ok ()) (fun _ => .ok ())
    "https://bkt.s3.reg.amazonaws.com/a_processed.png"
    "https://bkt.s3.reg.amazonaws.com/b_processed.png"
    (by decide) rfl rfl

/-- The keyword binding of the handler upload call evaluates to TypeError:
original_image_url is not a parameter of StorageService.upload_image. -/
theorem bindKwargs_handler_eq :
    bindKwargs upload_image_params handler_upload_kwargs =
      .error (.typeError "got an unexpected keyword argument") := rfl

/-- Claim C2: the handler passes the keyword argument original_image_url to
StorageService.upload_image, whose parameter is named original_url, so the
call raises TypeError; hence whenever the image pipeline succeeds the request
is answered with HTTP 500 via the generic exception branch, and no request
can ever receive the 200 success response. -/
theorem upload_call_kwarg_mismatch :
    (∃ m, bindKwargs upload_image_params handler_upload_kwargs =
        .error (.typeError m)) ∧
    (∀ req fetch model uuid bucket region putObject processed,
        (process_image fetch model req.bounding_box).1 = .ok processed →
        remove_background_endpoint req fetch model uuid bucket region putObject =
          (.httpError 500 "Internal server error", some ⟨processed, "PNG"⟩)) ∧
    (∀ req fetch model uuid bucket region putObject o p,
        (remove_background_endpoint req fetch model uuid bucket region putObject).1 ≠
          .ok o p) := by
  refine ⟨⟨"got an unexpected keyword argument", rfl⟩, ?_, ?_⟩
  · intro req fetch model uuid bucket region putObject processed h
    rcases hp : process_image fetch model req.bounding_box with ⟨r, st⟩
    rw [hp] at h
    simp only at h
    subst h
    simp only [remove_background_endpoint, hp, bindKwargs_handler_eq]
    rfl
  · intro req fetch model uuid bucket region putObject o p
    rcases hp : process_image fetch model req.bounding_box with ⟨r, st⟩
    cases r with
    | error e =>
        cases e <;> simp [remove_background_endpoint, hp, pyErrorToHttp]
    | ok processed =>
        simp [remove_background_endpoint, hp, bindKwargs_handler_eq, pyErrorToHttp]

/-- Witness for C2: a concrete request whose pipeline succeeds still gets
HTTP 500. -/
theorem upload_call_kwarg_mismatch_witness :
    remove_background_endpoint
        ⟨"u", ⟨some 0, some 0, some 10, some 10⟩⟩
        (fun _ => .decoded ⟨100, 100, "RGB", some "JPEG"⟩) (fun a => a)
        "id1" "bkt" "reg" (fun _ => .ok ()) =
      (.httpError 500 "Internal server error",
        some ⟨⟨10, 10, "RGBA", none⟩, "PNG"⟩) :=
  upload_call_kwarg_mismatch.2.1
    ⟨"u", ⟨some 0, some 0, some 10, some 10⟩⟩
    (fun _ => .decoded ⟨100, 100, "RGB", some "JPEG"⟩) (fun a => a)
    "id1" "bkt" "reg" (fun _ => .ok ()) ⟨10, 10, "RGBA", none⟩ rfl

/-- Claim C1 counterexample: a processing failure — the segmentation model
returning a non-4-channel array — is raised as ValueError and mapped to
HTTP 400, not 500, contradicting the claim that processing errors produce
500. -/
theorem processing_error_maps_to_400 :
    (remove_background_endpoint ⟨"u", ⟨some 0, some 0, some 10, some 10⟩⟩
        (fun _ => .decoded ⟨100, 100, "RGB", some "JPEG"⟩) (fun _ => ⟨[5]⟩)
        "id1" "bkt" "reg" (fun _ => .ok ())).1 =
      .httpError 400
        "Background removal failed: Unexpected array shape during background removal" ∧
    statusOf (remove_background_endpoint ⟨"u", ⟨some 0, some 0, some 10, some 10⟩⟩
        (fun _ => .decoded ⟨100, 100, "RGB", some "JPEG"⟩) (fun _ => ⟨[5]⟩)
        "id1" "bkt" "reg" (fun _ => .ok ())).1 ≠ 500 := by
  refine ⟨rfl, ?_⟩
  intro hc
  rw [show statusOf (remove_background_endpoint ⟨"u", ⟨some 0, some 0, some 10, some 10⟩⟩
      (fun _ => .decoded ⟨100, 100, "RGB", some "JPEG"⟩) (fun _ => ⟨[5]⟩)
      "id1" "bkt" "reg" (fun _ => .ok ())).1 = 400 from rfl] at hc
  exact absurd hc (by norm_num)

/-- Claim C1 amended: the handler maps every ValueError to HTTP 400 and every
other exception to HTTP 500, regardless of origin; since the services wrap
processing failures and S3 upload failures in ValueError as well, those also
surface as 400, and only non-ValueError exceptions (such as TypeError or
KeyError) surface as 500. -/
theorem error_normalization (req : ImageProcessRequest)
    (fetch : Nat → DownloadOutcome) (model : NpArray → NpArray)
    (uuid bucket region : String) (putObject : PutObjectCall → Except S3Error Unit) :
    (∀ e, (process_image fetch model req.bounding_box).1 = .error e →
        (remove_background_endpoint req fetch model uuid bucket region putObject).1 =
          pyErrorToHttp e) ∧
    (∀ e, isValueError e = true → ∃ m, pyErrorToHttp e = .httpError 400 m) ∧
    (∀ e, isValueError e = false →
        pyErrorToHttp e = .httpError 500 "Internal server error") ∧
    (∀ e, (upload_image uuid bucket region putObject).1 = .error e →
        isValueError e = true) := by
  refine ⟨?_, ?_, ?_, ?_⟩
  · intro e h
    rcases hp : process_image fetch model req.bounding_box with ⟨r, st⟩
    rw [hp] at h
    simp only at h
    subst h
    simp only [remove_background_endpoint, hp]
  · intro e he
    cases e with
    | valueError m => exact ⟨m, rfl⟩
    | typeError m => simp [isValueError] at he
    | keyError k => simp [isValueError] at he
    | attributeError => simp [isValueError] at he
  · intro e he
    cases e with
    | valueError m => simp [isValueError] at he
    | typeError m => rfl
    | keyError k => rfl
    | attributeError => rfl
  · exact upload_image_error_is_valueError uuid bucket region putObject

/-- Witness for C1 amended: a concrete pipeline ValueError maps through
pyErrorToHttp, and a concrete S3 client failure raises a ValueError. -/
theorem error_normalization_witness :
    (remove_background_endpoint ⟨"u", ⟨some 0, some 0, some 10, some 10⟩⟩
        (fun _ => .decoded ⟨100, 100, "RGB", some "JPEG"⟩) (fun _ => ⟨[5]⟩)
        "id1" "bkt" "reg" (fun _ => .ok ())).1 =
      pyErrorToHttp
        (.valueError
          "Background removal failed: Unexpected array shape during background removal") ∧
    isValueError (.valueError "S3 upload failed: boom") = true :=
  ⟨(error_normalization ⟨"u", ⟨some 0, some 0, some 10, some 10⟩⟩
      (fun _ => .decoded ⟨100, 100, "RGB", some "JPEG"⟩) (fun _ => ⟨[5]⟩)
      "id1" "bkt" "reg" (fun _ => .ok ())).1 _ rfl,
    (error_normalization ⟨"u", ⟨some 0, some 0, some 10, some 10⟩⟩
      (fun _ => .decoded ⟨100, 100, "RGB", some "JPEG"⟩) (fun _ => ⟨[5]⟩)
      "id1" "bkt" "reg" (fun _ => .error (.clientError "boom"))).2.2.2 _ rfl⟩

/-- Claim C6: every image produced by background removal is in RGBA mode
regardless of the input mode; removal fails exactly when the model output is
not a 3-dimensional 4-channel array; and the handler encodes the pipeline
result as PNG (in RGBA mode) into the upload buffer. -/
theorem output_always_rgba_png (model : NpArray → NpArray) (img : PILImage) :
    (∀ out, remove_background model img = .ok out → out.mode = "RGBA") ∧
    ((∃ out, remove_background model img = .ok out) ↔
      ∃ hh ww, (model (npOfImage (toRGBA img))).shape = [hh, ww, 4]) ∧
    (∀ req fetch uuid bucket region putObject processed,
        (process_image fetch model req.bounding_box).1 = .ok processed →
        processed.mode = "RGBA" ∧
        (remove_background_endpoint req fetch model uuid bucket region putObject).2 =
          some ⟨processed, "PNG"⟩) := by
  refine ⟨fun out h => remove_background_mode model img out h,
    remove_background_ok_iff model img, ?_⟩
  intro req fetch uuid bucket region putObject processed h
  constructor
  · obtain ⟨cropped, hrb⟩ := process_image_ok_rb fetch model req.bounding_box processed h
    exact remove_background_mode model cropped processed hrb
  · rcases hp : process_image fetch model req.bounding_box with ⟨r, st⟩
    rw [hp] at h
    simp only at h
    subst h
    simp only [remove_background_endpoint, hp, bindKwargs_handler_eq]

/-- Witness for C6: a concrete RGB JPEG input yields an RGBA image which the
handler encodes as PNG. -/
theorem output_always_rgba_png_witness :
    (⟨10, 10, "RGBA", none⟩ : PILImage).mode = "RGBA" ∧
    ((⟨10, 10, "RGBA", none⟩ : PILImage).mode = "RGBA" ∧
      (remove_background_endpoint ⟨"u", ⟨some 0, some 0, some 10, some 10⟩⟩
          (fun _ => .decoded ⟨100, 100, "RGB", some "JPEG"⟩) (fun a => a)
          "id1" "bkt" "reg" (fun _ => .ok ())).2 =
        some ⟨⟨10, 10, "RGBA", none⟩, "PNG"⟩) :=
  ⟨(output_always_rgba_png (fun a => a) ⟨10, 10, "RGB", none⟩).1
      ⟨10, 10, "RGBA", none⟩ rfl,
    (output_always_rgba_png (fun a => a) ⟨100, 100, "RGB", some "JPEG"⟩).2.2
      ⟨"u", ⟨some 0, some 0, some 10, some 10⟩⟩
      (fun _ => .decoded ⟨100, 100, "RGB", some "JPEG"⟩)
      "id1" "bkt" "reg" (fun _ => .ok ()) ⟨10, 10, "RGBA", none⟩ rfl⟩

/-- The ValueError download_image raises for each failing outcome. -/
def download_error (fetch : Nat → DownloadOutcome) (i : Nat) : PyError :=
  match fetch i with
  | .timeout => .valueError "The request timed out while trying to download the image"
  | .requestError m => .valueError ("An error occurred while downloading the image: " ++ m)
  | .ioError => .valueError "Failed to open the image. The file might be corrupted or unsupported."
  | .decoded _ => .valueError "Unsupported image format"

/-- Claim C7: the pipeline is strictly linear: the stage trace is always a
prefix of download, validate, crop, removeBg; when every fetched payload
decodes to an unsupported format the request fails during download — before
the crop stage is ever reached — with a ValueError; and the crop stage is
reached only after the download succeeded and bounding-box validation passed
on the downloaded image. -/
theorem pipeline_linear (fetch : Nat → DownloadOutcome) (model : NpArray → NpArray)
    (bb : BoundingBox) :
    (∃ n, (process_image fetch model bb).2 =
        [Stage.download, Stage.validate, Stage.crop, Stage.removeBg].take n) ∧
    ((∀ i img, fetch i = .decoded img → supportedFormat img = false) →
      Stage.crop ∉ (process_image fetch model bb).2 ∧
      ∃ m, (process_image fetch model bb).1 = .error (.valueError m)) ∧
    (Stage.crop ∈ (process_image fetch model bb).2 →
      ∃ img, (download_image_with_retries_default
          (fun i => download_image (fetch i))).result = .ok (some img) ∧
        validate_bounding_box img bb = .ok ()) := by
  refine ⟨?_, ?_, ?_⟩
  · unfold process_image
    split
    · exact ⟨1, rfl⟩
    · exact ⟨2, rfl⟩
    · split
      · exact ⟨2, rfl⟩
      · split
        · exact ⟨3, rfl⟩
        · split
          · exact ⟨4, rfl⟩
          · exact ⟨4, rfl⟩
  · intro hbad
    have herr : ∀ i, download_image (fetch i) = .error (download_error fetch i) := by
      intro i
      unfold download_image download_error
      cases hf : fetch i with
      | timeout => rfl
      | requestError m => rfl
      | ioError => rfl
      | decoded img => simp [hbad i img hf]
    have hres := retryLoop_all_fail (fun i => download_image (fetch i))
      (download_error fetch) herr 2 2 0
    have hresult : (download_image_with_retries_default
        (fun i => download_image (fetch i))).result = .error (download_error fetch 2) := by
      show (retryLoop (fun i => download_image (fetch i)) 2 (2 + 1) 0).result = _
      rw [hres]
    constructor
    · simp only [process_image, hresult]
      decide
    · refine ⟨?_, ?_⟩
      · exact pyStr (download_error fetch 2)
      · simp only [process_image, hresult]
        unfold download_error pyStr
        cases hf : fetch 2 <;> rfl
  · intro hcrop
    cases hdl : (download_image_with_retries_default
        (fun i => download_image (fetch i))).result with
    | error e =>
        simp only [process_image, hdl] at hcrop
        exact absurd hcrop (by decide)
    | ok oimg =>
        cases oimg with
        | none =>
            simp only [process_image, hdl] at hcrop
            exact absurd hcrop (by decide)
        | some img =>
            cases hval : validate_bounding_box img bb with
            | error e =>
                simp only [process_image, hdl, hval] at hcrop
                exact absurd hcrop (by decide)
            | ok u =>
                cases u
                exact ⟨img, rfl, hval⟩

/-- Witness for C7: with a GIF payload the crop stage is never reached and the
request fails with a ValueError; with a JPEG payload and a valid box the crop
stage is reached after download and validation both succeeded. -/
theorem pipeline_linear_witness :
    (Stage.crop ∉ (process_image (fun _ => .decoded ⟨100, 100, "P", some "GIF"⟩)
        (fun a => a) ⟨some 0, some 0, some 10, some 10⟩).2 ∧
      ∃ m, (process_image (fun _ => .decoded ⟨100, 100, "P", some "GIF"⟩)
          (fun a => a) ⟨some 0, some 0, some 10, some 10⟩).1 =
        .error (.valueError m)) ∧
    (∃ img, (download_image_with_retries_default
        (fun i => download_image ((fun _ => DownloadOutcome.decoded
          ⟨100, 100, "RGB", some "JPEG"⟩) i))).result = .ok (some img) ∧
      validate_bounding_box img ⟨some 0, some 0, some 10, some 10⟩ = .ok ()) :=
  ⟨(pipeline_linear (fun _ => .decoded ⟨100, 100, "P", some "GIF"⟩) (fun a => a)
      ⟨some 0, some 0, some 10, some 10⟩).2.1
      (fun i img h => by cases h; rfl),
    (pipeline_linear (fun _ => .decoded ⟨100, 100, "RGB", some "JPEG"⟩) (fun a => a)
      ⟨some 0, some 0, some 10, some 10⟩).2.2 (by decide)⟩

/-- Claim C10 counterexample: for a box missing only x_min (with the other
three keys valid for a 100x100 image), the default 0 satisfies the bound
check, so validation succeeds, crop_image then raises KeyError for x_min, and
the request surfaces as HTTP 500 — not as a ValueError-backed 400. -/
theorem missing_key_not_always_rejected :
    validate_bounding_box ⟨100, 100, "RGB", some "JPEG"⟩
      ⟨none, some 0, some 10, some 10⟩ = .ok () ∧
    crop_image ⟨100, 100, "RGB", some "JPEG"⟩
      ⟨none, some 0, some 10, some 10⟩ = .error (.keyError "x_min") ∧
    (remove_background_endpoint ⟨"u", ⟨none, some 0, some 10, some 10⟩⟩
        (fun _ => .decoded ⟨100, 100, "RGB", some "JPEG"⟩) (fun a => a)
        "id1" "bkt" "reg" (fun _ => .ok ())).1 =
      .httpError 500 "Internal server error" :=
  ⟨rfl, rfl, rfl⟩

/-- Claim C10 amended: a box missing x_max or y_max is always rejected by
validate_bounding_box with a ValueError (the default 0 cannot exceed the
defaulted or given minimum); but a box missing x_min or y_min can pass
validation with the default 0, and crop_image then raises a KeyError for the
missing key, which the handler maps to HTTP 500. -/
theorem missing_key_behaviour (img : PILImage) (bb : BoundingBox) :
    ((bb.x_max = none ∨ bb.y_max = none) →
      ∃ m, validate_bounding_box img bb = .error (.valueError m)) ∧
    (validate_bounding_box img bb = .ok () →
      (bb.x_min = none ∨ bb.y_min = none) →
      ∃ k, crop_image img bb = .error (.keyError k) ∧
        pyErrorToHttp (.keyError k) = .httpError 500 "Internal server error") := by
  constructor
  · intro h
    refine ⟨"Bounding box is invalid for the image dimensions.", ?_⟩
    simp only [validate_bounding_box, dictGetD]
    split
    · next hcond =>
        exfalso
        rcases h with hx | hy
        · rw [hx] at hcond
          simp only [Option.getD_none] at hcond
          omega
        · rw [hy] at hcond
          simp only [Option.getD_none] at hcond
          omega
    · rfl
  · intro _ hmiss
    cases hxm : bb.x_min with
    | none =>
        refine ⟨"x_min", ?_, rfl⟩
        simp [crop_image, dictGetStrict, hxm]
    | some x0 =>
        cases hym : bb.y_min with
        | none =>
            refine ⟨"y_min", ?_, rfl⟩
            simp [crop_image, dictGetStrict, hxm, hym]
        | some y0 =>
            rcases hmiss with h | h
            · rw [hxm] at h; exact absurd h (by simp)
            · rw [hym] at h; exact absurd h (by simp)

/-- Witness for C10 amended: a box missing x_max is rejected by validation; a
box missing x_min passes validation and fails in crop with KeyError mapped to
500. -/
theorem missing_key_behaviour_witness :
    (∃ m, validate_bounding_box ⟨100, 100, "RGB", some "JPEG"⟩
        ⟨some 0, some 0, none, some 10⟩ = .error (.valueError m)) ∧
    (∃ k, crop_image ⟨100, 100, "RGB", some "JPEG"⟩
        ⟨none, some 0, some 10, some 10⟩ = .error (.keyError k) ∧
      pyErrorToHttp (.keyError k) = .httpError 500 "Internal server error") :=
  ⟨(missing_key_behaviour ⟨100, 100, "RGB", some "JPEG"⟩
      ⟨some 0, some 0, none, some 10⟩).1 (Or.inl rfl),
    (missing_key_behaviour ⟨100, 100, "RGB", some "JPEG"⟩
      ⟨none, some 0, some 10, some 10⟩).2 rfl (Or.inl rfl)⟩

/-- Claim C5 counterexample: the app registers no POST /process route; the
processing endpoint lives at /remove-background instead. -/
theorem no_process_route : Route.mk "POST" "/process" ∉ app_routes := by
  decide

/-- Claim C5 amended: the HTTP interface exposes POST /remove-background (not
POST /process) accepting a JSON body with image_url and bounding_box, and
GET / returns a static welcome message. -/
theorem registered_routes :
    Route.mk "POST" "/remove-background" ∈ app_routes ∧
    Route.mk "GET" "/" ∈ app_routes ∧
    root_endpoint () = root_message := by
  exact ⟨by decide, by decide, rfl⟩

end BGRemover
